import Mathlib

/-!
Shallow embedding of the core of the `anki_direct` crate: the request
envelope codec with its pre-decode sanitization (src/generic.rs), the
result-resolution types (src/result.rs), the note/media builder pipeline
(src/notes.rs) and the `Number` identifier wrapper (src/lib.rs).

Rust side effects are made explicit: HTTP fetches and filesystem reads are
passed in as oracle functions, fallible code returns `Except`, and code
that can `panic!` / `unwrap` on `None` returns an `Outcome` with a
distinguished `panic` constructor.
-/

/-- JSON values, mirroring `serde_json::Value` (numbers restricted to the
integers, which is all this client ever decodes). -/
inductive Json : Type
  | null : Json
  | bool (b : Bool) : Json
  | num (n : Int) : Json
  | str (s : String) : Json
  | arr (elems : List Json) : Json
  | obj (members : List (String × Json)) : Json

namespace Json

/-- `Value::as_object` — `some` of the member list exactly on objects. -/
def asObject : Json → Option (List (String × Json))
  | .obj members => some members
  | _ => none

/-- `Value::get(key)` on an object: first binding wins (serde maps hold
each key once). Non-objects have no fields. -/
def get? (key : String) : Json → Option Json
  | .obj members => lookupMem key members
  | _ => none
where
  lookupMem (key : String) : List (String × Json) → Option Json
    | [] => none
    | (k, v) :: rest => if k = key then some v else lookupMem key rest

end Json

/-- The `retain` predicate used on `result` arrays in
`Backend::post_generic_request` (src/generic.rs:69-76): keep an element
unless it is an object with zero members. -/
def retainKeep (item : Json) : Bool :=
  match item.asObject with
  | some members => !members.isEmpty
  | none => true

/-- The sanitization pass over a `result` array: `Vec::retain` keeps, in
order, exactly the elements satisfying `retainKeep`. -/
def sanitizeArray (elems : List Json) : List Json :=
  elems.filter retainKeep

/-- Replace the value of the first binding of `key`, if any. -/
def setFirst (key : String) (newVal : Json) :
    List (String × Json) → List (String × Json)
  | [] => []
  | (k, v) :: rest =>
      if k = key then (k, newVal) :: rest
      else (k, v) :: setFirst key newVal rest

/-- The whole sanitization step of `Backend::post_generic_request`
(src/generic.rs:68-77): if the top-level `result` field exists and is an
array, that array is sanitized in place; any other value is untouched. -/
def sanitizeResponse (val : Json) : Json :=
  match val.get? "result" with
  | some (.arr elems) =>
      match val with
      | .obj members => .obj (setFirst "result" (.arr (sanitizeArray elems)) members)
      | v => v
  | _ => val

/-- `NoteBuilderError` (src/notes.rs, derive_builder error enriched with
the uninitialized-field variant raised by `is_field_uninitialized`). -/
inductive NoteBuilderError : Type
  | UninitializedField (name : String)
deriving DecidableEq

/-- `BuilderErrors` (src/error.rs:17-26), restricted to the variants the
embedded code paths can produce. -/
inductive BuilderErrors : Type
  | MissingMedia (filename : String)
  | Note (e : NoteBuilderError)
deriving DecidableEq

/-- `CustomSerdeError` (src/error.rs:73-99): expected shape name, raw
received value, and the underlying decode diagnostic. -/
structure CustomSerdeError : Type where
  exp : String
  recv : Json
  help : String

/-- `AnkiError` (src/error.rs:46-71), restricted to the variants the
embedded code paths can produce. -/
inductive AnkiError : Type
  | AnkiConnect (msg : String)
  | NoDataFound
  | RequestError (msg : String)
  | ParseIntError (raw : String)
  | ConnectionNotFound (url : String)
  | CustomSerde (e : CustomSerdeError)
  | Io (msg : String)
  | Builder (e : BuilderErrors)

/-- Outcome of running a piece of Rust code that may return a value,
return an error, or abort the process (`panic!` / `unwrap` on `None` /
`unreachable!`). -/
inductive Outcome (α : Type) : Type
  | ok (a : α) : Outcome α
  | err (e : AnkiError) : Outcome α
  | panic : Outcome α

/-- `GenericResult<T>` (src/generic.rs:33-37): the decoded response
envelope. `result` has the bare type `T`; optionality lives inside `T`
when `T` is itself an `Option`. -/
structure GenericResult (T : Type) : Type where
  result : T
  error : Option String

/-- The error-resolution tail of `Backend::post_generic_request`
(src/generic.rs:86-89): a non-null `error` becomes
`AnkiError::AnkiConnect`, otherwise the decoded `result` is returned. -/
def genericResolve {T : Type} (body : GenericResult T) : Except AnkiError T :=
  match body.error with
  | some e => .error (.AnkiConnect e)
  | none => .ok body.result

/-- `FieldData` (src/result.rs:23-26). -/
structure FieldData : Type where
  value : String
  order : Nat

/-- `NotesInfoData` (src/result.rs:29-34); the `fields` hash map is
embedded as an association list. -/
structure NotesInfoData : Type where
  noteId : Nat
  modelName : String
  tags : List String
  fields : List (String × FieldData)

/-- `NotesInfoRes` (src/result.rs:37-40). -/
structure NotesInfoRes : Type where
  result : Option (List NotesInfoData)
  error : Option String

/-- `NotesInfoRes::into_result` (src/result.rs:43-52). -/
def NotesInfoRes.into_result (self : NotesInfoRes) :
    Except AnkiError (List NotesInfoData) :=
  match self.error with
  | some e => .error (.RequestError e)
  | none =>
      match self.result with
      | some vec => if vec.isEmpty then .error .NoDataFound else .ok vec
      | none => .error .NoDataFound

/-- `NumVecRes` (src/result.rs:17-20). -/
structure NumVecRes : Type where
  result : Option (List Nat)
  error : Option String

/-- `NumVecRes::into_result` (src/result.rs:56-65). -/
def NumVecRes.into_result (self : NumVecRes) : Except AnkiError (List Nat) :=
  match self.error with
  | some e => .error (.RequestError e)
  | none =>
      match self.result with
      | some vec => if vec.isEmpty then .error .NoDataFound else .ok vec
      | none => .error .NoDataFound

/-- Spec-side predicate, from the sanitization rule's words: an element
that "is itself a structured object with zero members". -/
def isEmptyObject : Json → Bool
  | .obj members => members.isEmpty
  | _ => false

/-- **C4.** For every `result` array, the pre-decode sanitization removes
exactly the elements that are objects with zero members: the output is
the input filtered by "not an empty object", and it is a sublist of the
input, so every retained element is unchanged and the relative order of
retained elements is preserved. -/
theorem sanitizeArray_removes_exactly_empty_objects (elems : List Json) :
    sanitizeArray elems = elems.filter (fun v => !isEmptyObject v) ∧
      (sanitizeArray elems).Sublist elems := by
  constructor
  · unfold sanitizeArray
    congr 1
    funext v
    cases v <;> rfl
  · exact List.filter_sublist elems

/-- **C8.** The empty-object-removal sanitization is idempotent: applying
it to an already-sanitized array is a no-op. -/
theorem sanitizeArray_idempotent (elems : List Json) :
    sanitizeArray (sanitizeArray elems) = sanitizeArray elems := by
  unfold sanitizeArray
  rw [List.filter_filter]
  congr 1
  funext v
  cases h : retainKeep v <;> simp [h]

/-- **C2.** Error exclusivity of result resolution: whenever the decoded
envelope's `error` field is non-null, the generic codec resolves to
`AnkiError::AnkiConnect` with that string and `NotesInfoRes::into_result`
resolves to `AnkiError::RequestError` with that string — never a
successful result — regardless of the `result` field's contents. -/
theorem error_field_always_rejects {T : Type} (r : T)
    (infoRes : Option (List NotesInfoData)) (e : String) :
    genericResolve { result := r, error := some e } = .error (.AnkiConnect e) ∧
      NotesInfoRes.into_result { result := infoRes, error := some e } =
        .error (.RequestError e) ∧
      (∀ t : T, genericResolve { result := r, error := some e } ≠ .ok t) ∧
      (∀ v, NotesInfoRes.into_result { result := infoRes, error := some e } ≠ .ok v) := by
  refine ⟨rfl, rfl, ?_, ?_⟩ <;> intro t h <;> simp [genericResolve,
    NotesInfoRes.into_result] at h

/-- `MediaPath` (src/notes.rs:246): a path that was checked to exist at
construction time. The filesystem is abstracted by the `fsExists` oracle
passed to `MediaPath.from_path`. -/
structure MediaPath : Type where
  val : String
deriving DecidableEq

/-- `MediaPath::from_path` (src/notes.rs:248-253): succeeds exactly when
the path exists, per the injected filesystem oracle. -/
def MediaPath.from_path (fsExists : String → Bool) (buf : String) :
    Option MediaPath :=
  if fsExists buf then some ⟨buf⟩ else none

/-- `MediaSource` (src/notes.rs:276-285): inline bytes, a URL, an
existing local path, or the internal transfer-only `_Empty` tag. Bytes
are modeled as lists of naturals. -/
inductive MediaSource : Type
  | Data (bytes : List Nat)
  | Url (url : String)
  | Path (path : MediaPath)
  | _Empty
deriving DecidableEq

/-- `MediaSource::to_data` (src/notes.rs:293-320). Network and filesystem
are abstracted by the `fetch` and `readFile` oracles; the `_Empty` arm is
the source's `unreachable!`, i.e. a panic. -/
def MediaSource.to_data (fetch : String → Except AnkiError (List Nat))
    (readFile : String → Except AnkiError (List Nat)) :
    MediaSource → Outcome (List Nat)
  | .Data bytes => .ok bytes
  | .Url url =>
      match fetch url with
      | .ok bytes => .ok bytes
      | .error e => .err e
  | .Path path =>
      match readFile path.val with
      | .ok bytes => .ok bytes
      | .error e => .err e
  | ._Empty => .panic

/-- The UTF-8 bytes of a string, as naturals: the Lean counterpart of
Rust's `s.bytes().collect::<Vec<u8>>()`. -/
def strBytes (s : String) : List Nat :=
  s.toUTF8.toList.map UInt8.toNat

/-- `impl From<&str> for MediaSource` (src/notes.rs:322-333): try an
existing path first, then a well-formed URL (abstracted by the
`parseUrl` oracle, which returns the normalized URL string), else inline
data holding the string's raw bytes. -/
def MediaSource.from_str (fsExists : String → Bool)
    (parseUrl : String → Option String) (s : String) : MediaSource :=
  match MediaPath.from_path fsExists s with
  | some path => .Path path
  | none =>
      match parseUrl s with
      | some url => .Url url
      | none => .Data (strBytes s)

/-- `Media` (src/notes.rs:342-365). -/
structure Media : Type where
  filename : String
  data : List Nat
  url : Option MediaSource
  path : Option MediaSource
  fields : List String
  skipHash : Option String
deriving DecidableEq

/-- `Media::missing_media_error` (src/notes.rs:368-372). -/
def Media.missing_media_error (self : Media) : AnkiError :=
  .Builder (.MissingMedia self.filename)

/-- `Media::data` (src/notes.rs:385-400), the per-item resolution step:
match on `(url, path, data)` — a set `url` source wins, else a set `path`
source, else pre-supplied non-empty inline bytes are kept, else the
missing-media error. On success the resolved bytes are stored back into
the item. -/
def Media.resolveData (fetch readFile : String → Except AnkiError (List Nat))
    (self : Media) : Outcome Media :=
  match self.url, self.path, self.data with
  | some url, _, _ =>
      match url.to_data fetch readFile with
      | .ok bytes => .ok { self with data := bytes }
      | .err e => .err e
      | .panic => .panic
  | none, some path, _ =>
      match path.to_data fetch readFile with
      | .ok bytes => .ok { self with data := bytes }
      | .err e => .err e
      | .panic => .panic
  | none, none, bytes =>
      if !bytes.isEmpty then .ok self
      else .err self.missing_media_error

/-- **C7.** `MediaSource` construction from a free-form string is total
and tries the three interpretations in the fixed order
path-then-url-then-data: an existing filesystem path yields `Path`,
otherwise a well-formed URL yields `Url`, otherwise the result is `Data`
holding exactly the string's raw bytes. -/
theorem mediaSource_from_str_precedence (fsExists : String → Bool)
    (parseUrl : String → Option String) (s : String) :
    (fsExists s = true → MediaSource.from_str fsExists parseUrl s = .Path ⟨s⟩) ∧
      (fsExists s = false → ∀ u, parseUrl s = some u →
        MediaSource.from_str fsExists parseUrl s = .Url u) ∧
      (fsExists s = false → parseUrl s = none →
        MediaSource.from_str fsExists parseUrl s = .Data (strBytes s)) := by
  refine ⟨fun hex => ?_, fun hex u hu => ?_, fun hex hu => ?_⟩
  · simp [MediaSource.from_str, MediaPath.from_path, hex]
  · simp [MediaSource.from_str, MediaPath.from_path, hex, hu]
  · simp [MediaSource.from_str, MediaPath.from_path, hex, hu]

/-- Closed witness for C7: with a one-file filesystem and a URL parser
recognizing a single address, the three example inputs of the spec
resolve to path, URL and inline data respectively. -/
theorem mediaSource_from_str_precedence_witness :
    MediaSource.from_str (fun p => p = "./local.txt")
        (fun s => if s = "https://example.com/a.mp3" then some s else none)
        "./local.txt" = .Path ⟨"./local.txt"⟩ ∧
      MediaSource.from_str (fun p => p = "./local.txt")
        (fun s => if s = "https://example.com/a.mp3" then some s else none)
        "https://example.com/a.mp3" = .Url "https://example.com/a.mp3" ∧
      MediaSource.from_str (fun p => p = "./local.txt")
        (fun s => if s = "https://example.com/a.mp3" then some s else none)
        "plain text" = .Data (strBytes "plain text") := by
  refine ⟨(mediaSource_from_str_precedence _ _ _).1 (by decide),
    (mediaSource_from_str_precedence _ _ _).2.1 (by decide) _ (by decide),
    (mediaSource_from_str_precedence _ _ _).2.2 (by decide) (by decide)⟩

/-- Store resolved bytes back into a media item, propagating errors and
panics — the common tail of both source arms of `Media::data`. -/
def storeBytes (self : Media) : Outcome (List Nat) → Outcome Media
  | .ok bytes => .ok { self with data := bytes }
  | .err e => .err e
  | .panic => .panic

/-- **C3.** Media resolution precedence (`Media::data`): a set `url`
source is used first (whatever the outcome), otherwise a set `path`
source, otherwise non-empty pre-supplied inline data is kept unchanged,
otherwise the resolution fails with the missing-media error naming the
item's filename. When the `url` slot holds a URL source the outcome is
the same under any two filesystem oracles: the filesystem is never read. -/
theorem media_resolution_precedence
    (fetch readFile readFile2 : String → Except AnkiError (List Nat))
    (m : Media) :
    (∀ src, m.url = some src →
        m.resolveData fetch readFile = storeBytes m (src.to_data fetch readFile)) ∧
      (m.url = none → ∀ src, m.path = some src →
        m.resolveData fetch readFile = storeBytes m (src.to_data fetch readFile)) ∧
      (m.url = none → m.path = none → m.data ≠ [] →
        m.resolveData fetch readFile = .ok m) ∧
      (m.url = none → m.path = none → m.data = [] →
        m.resolveData fetch readFile = .err (.Builder (.MissingMedia m.filename))) ∧
      (∀ u, m.url = some (.Url u) →
        m.resolveData fetch readFile = m.resolveData fetch readFile2) := by
  refine ⟨fun src hu => ?_, fun hu src hp => ?_, fun hu hp hd => ?_,
    fun hu hp hd => ?_, fun u hu => ?_⟩
  · cases h : src.to_data fetch readFile <;>
      simp [Media.resolveData, storeBytes, hu, h]
  · cases h : src.to_data fetch readFile <;>
      simp [Media.resolveData, storeBytes, hu, hp, h]
  · simp [Media.resolveData, hu, hp, hd]
  · simp [Media.resolveData, Media.missing_media_error, hu, hp, hd]
  · simp only [Media.resolveData, hu, MediaSource.to_data]

/-- A media item of the spec's scenario: both `url` and `path` are set. -/
def mediaBoth : Media :=
  { filename := "y.mp3", data := [], url := some (.Url "https://x/y.mp3"),
    path := some (.Path ⟨"/tmp/y.mp3"⟩), fields := ["sentenceAudio"],
    skipHash := none }

/-- A network oracle serving one address, and filesystem oracles that
disagree with each other, to observe any filesystem access. -/
def fetchX : String → Except AnkiError (List Nat) :=
  fun u => if u = "https://x/y.mp3" then .ok [7, 7, 7] else .error (.RequestError u)

def readNever : String → Except AnkiError (List Nat) :=
  fun p => .error (.Io p)

def readOther : String → Except AnkiError (List Nat) :=
  fun _ => .ok [9]

/-- Closed witness for C3: the spec's both-sources scenario resolves over
the URL, stores the fetched bytes, and its outcome does not change when
the filesystem oracle does. -/
theorem media_resolution_precedence_witness :
    mediaBoth.resolveData fetchX readNever = .ok { mediaBoth with data := [7, 7, 7] } ∧
      mediaBoth.resolveData fetchX readNever = mediaBoth.resolveData fetchX readOther := by
  refine ⟨?_, (media_resolution_precedence fetchX readNever readOther mediaBoth).2.2.2.2
    "https://x/y.mp3" rfl⟩
  rw [(media_resolution_precedence fetchX readNever readOther mediaBoth).1
    (.Url "https://x/y.mp3") rfl]
  rfl

/-- `DuplicateScope` (src/notes.rs:20-23). -/
inductive DuplicateScope : Type
  | Deck
  | EntireCollection
deriving DecidableEq

/-- `DuplicateScopeOptions` (src/notes.rs:47-53). -/
structure DuplicateScopeOptions : Type where
  deck_name : Option String
  check_children : Bool
  check_all_models : Bool
deriving DecidableEq

/-- `NoteOptions` (src/notes.rs:36-43). -/
structure NoteOptions : Type where
  allow_duplicate : Bool
  duplicate_scope : DuplicateScope
  duplicate_scope_options : DuplicateScopeOptions
deriving DecidableEq

/-- `Note` (src/notes.rs:117-135); the `fields` index map is embedded as
an ordered association list. -/
structure Note : Type where
  deck_name : String
  model_name : String
  fields : List (String × String)
  options : Option NoteOptions
  tags : Option (List String)
  audios : Option (List Media)
  videos : Option (List Media)
  pictures : Option (List Media)
deriving DecidableEq

/-- `NoteBuilder`, the derive_builder staging struct for `Note`: every
field of the target is wrapped in one more `Option` marking whether the
setter was ever called (`strip_option` setters make the optional target
fields doubly wrapped). -/
structure NoteBuilder : Type where
  deck_name : Option String
  model_name : Option String
  fields : Option (List (String × String))
  options : Option (Option NoteOptions)
  tags : Option (Option (List String))
  audios : Option (Option (List Media))
  videos : Option (Option (List Media))
  pictures : Option (Option (List Media))
deriving DecidableEq

/-- `NoteBuilder::is_field_uninitialized` (src/notes.rs:185-198): an
error is raised only when the staged field is set (`Some`) and its value
is empty; an unset (`None`) field passes the check. The `CollectionExt`
emptiness test is passed in per instantiation. -/
def is_field_uninitialized {α : Type} (isEmptyFn : α → Bool)
    (field : Option α) (field_name : String) : Except AnkiError Unit :=
  match field with
  | some f =>
      if isEmptyFn f then
        .error (.Builder (.Note (.UninitializedField field_name)))
      else .ok ()
  | none => .ok ()

/-- Resolve each media item of a list in order, stopping at the first
error or panic (the loop bodies of `convert_media_fields_to_bytes`,
src/notes.rs:165-179). -/
def resolveMediaList (fetch readFile : String → Except AnkiError (List Nat)) :
    List Media → Outcome (List Media)
  | [] => .ok []
  | m :: rest =>
      match m.resolveData fetch readFile with
      | .ok m2 =>
          match resolveMediaList fetch readFile rest with
          | .ok ms => .ok (m2 :: ms)
          | .err e => .err e
          | .panic => .panic
      | .err e => .err e
      | .panic => .panic

/-- One `if let Some(Some(list))` arm of `convert_media_fields_to_bytes`
(src/notes.rs:160-181): a staged media list is resolved in place, any
other staging state is untouched. -/
def convertSlot (fetch readFile : String → Except AnkiError (List Nat)) :
    Option (Option (List Media)) → Outcome (Option (Option (List Media)))
  | some (some l) =>
      match resolveMediaList fetch readFile l with
      | .ok l2 => .ok (some (some l2))
      | .err e => .err e
      | .panic => .panic
  | other => .ok other

/-- `NoteBuilder::build` (src/notes.rs:210-235): check/take `fields`,
then `deck_name`, then `model_name` — each check only rejects
set-but-empty values, and each subsequent `take().unwrap()` panics when
the field was never set — then resolve all staged media and move the
remaining staging state into the finished `Note`. -/
def NoteBuilder.build (fetch readFile : String → Except AnkiError (List Nat))
    (self : NoteBuilder) : Outcome Note :=
  match is_field_uninitialized List.isEmpty self.fields "fields" with
  | .error e => .err e
  | .ok _ =>
      match self.fields with
      | none => .panic
      | some fieldsVal =>
          match is_field_uninitialized String.isEmpty self.deck_name "deck_name" with
          | .error e => .err e
          | .ok _ =>
              match self.deck_name with
              | none => .panic
              | some deckVal =>
                  match is_field_uninitialized String.isEmpty self.model_name "model_name" with
                  | .error e => .err e
                  | .ok _ =>
                      match self.model_name with
                      | none => .panic
                      | some modelVal =>
                          match convertSlot fetch readFile self.audios with
                          | .err e => .err e
                          | .panic => .panic
                          | .ok audios2 =>
                              match convertSlot fetch readFile self.videos with
                              | .err e => .err e
                              | .panic => .panic
                              | .ok videos2 =>
                                  match convertSlot fetch readFile self.pictures with
                                  | .err e => .err e
                                  | .panic => .panic
                                  | .ok pictures2 =>
                                      .ok { deck_name := deckVal,
                                            model_name := modelVal,
                                            fields := fieldsVal,
                                            options := self.options.join,
                                            tags := self.tags.join,
                                            audios := audios2.join,
                                            videos := videos2.join,
                                            pictures := pictures2.join }

/-- Validation behaviour of `build` as the code implements it, written
out from the source's check order: the checks run in the order `fields`,
`deck_name`, `model_name`; a set-but-empty field yields the
uninitialized-field error, an unset field panics on the unwrap. (The
final arm is never reached when some required field is missing or
empty.) -/
def buildValidationSpec (b : NoteBuilder) : Outcome Note :=
  match b.fields with
  | none => .panic
  | some f =>
      if f.isEmpty then .err (.Builder (.Note (.UninitializedField "fields")))
      else
        match b.deck_name with
        | none => .panic
        | some d =>
            if d.isEmpty then .err (.Builder (.Note (.UninitializedField "deck_name")))
            else
              match b.model_name with
              | none => .panic
              | some mo =>
                  if mo.isEmpty then
                    .err (.Builder (.Note (.UninitializedField "model_name")))
                  else .panic

/-- **C1 (amended).** On every staged input in which some required field
(`fields`, `deck_name`, `model_name`) is unset or set-but-empty, `build`
never succeeds, and behaves as the first defect met in the fixed check
order `fields` → `deck_name` → `model_name` dictates: a set-but-empty
field produces the uninitialized-field validation error naming it, while
an unset field makes `build` panic on its unwrap. -/
theorem noteBuilder_build_validation
    (fetch readFile : String → Except AnkiError (List Nat)) (b : NoteBuilder)
    (h : b.fields = none ∨ b.fields = some [] ∨ b.deck_name = none ∨
      b.deck_name = some "" ∨ b.model_name = none ∨ b.model_name = some "") :
    b.build fetch readFile = buildValidationSpec b := by
  cases hf : b.fields with
  | none => simp [NoteBuilder.build, buildValidationSpec, is_field_uninitialized, hf]
  | some f =>
    cases f with
    | nil => simp [NoteBuilder.build, buildValidationSpec, is_field_uninitialized, hf]
    | cons p ps =>
      cases hd : b.deck_name with
      | none =>
        simp [NoteBuilder.build, buildValidationSpec, is_field_uninitialized, hf, hd]
      | some d =>
        by_cases hde : d.isEmpty
        · simp [NoteBuilder.build, buildValidationSpec, is_field_uninitialized,
            hf, hd, hde]
        · cases hm : b.model_name with
          | none =>
            simp [NoteBuilder.build, buildValidationSpec, is_field_uninitialized,
              hf, hd, hde, hm]
          | some mo =>
            by_cases hme : mo.isEmpty
            · simp [NoteBuilder.build, buildValidationSpec, is_field_uninitialized,
                hf, hd, hde, hm, hme]
            · exfalso
              rw [hf, hd, hm] at h
              rcases h with h | h | h | h | h | h <;> simp_all <;>
                first
                | exact absurd hde (by decide)
                | exact absurd hme (by decide)

/-- Oracles that are never consulted on the validation paths. -/
def fetchUnused : String → Except AnkiError (List Nat) :=
  fun u => .error (.RequestError u)

def readUnused : String → Except AnkiError (List Nat) :=
  fun p => .error (.Io p)

/-- A staged note with `deck_name` never set (the earliest violated field
in the order claimed by the spec), `model_name` set to the empty string
and `fields` set to the empty map. -/
def builderDeckUnset : NoteBuilder :=
  { deck_name := none, model_name := some "", fields := some [],
    options := none, tags := none, audios := none, videos := none,
    pictures := none }

/-- Counterexample to C1 as stated: on a staged input whose `deckName` is
missing (and `modelName` empty), `build` reports the later field
`fields`, not the first violated field of the claimed order
deckName → modelName → fields. -/
theorem noteBuilder_build_order_counterexample :
    builderDeckUnset.build fetchUnused readUnused =
        .err (.Builder (.Note (.UninitializedField "fields"))) ∧
      builderDeckUnset.deck_name = none ∧
      builderDeckUnset.model_name = some "" ∧
      "fields" ≠ "deck_name" := by
  refine ⟨rfl, rfl, rfl, by decide⟩

/-- A staged note whose only defect is an empty `deck_name`. -/
def builderDeckEmpty : NoteBuilder :=
  { deck_name := some "", model_name := some "Basic",
    fields := some [("Front", "x")], options := none, tags := none,
    audios := none, videos := none, pictures := none }

/-- Closed witness for the amended C1: with `fields` non-empty and
`deck_name` set to the empty string, `build` returns the validation
error naming `deck_name`. -/
theorem noteBuilder_build_validation_witness :
    builderDeckEmpty.build fetchUnused readUnused =
      .err (.Builder (.Note (.UninitializedField "deck_name"))) :=
  (noteBuilder_build_validation fetchUnused readUnused builderDeckEmpty
    (Or.inr (Or.inr (Or.inr (Or.inl rfl))))).trans rfl

/-- `Params` (src/notes.rs:430-435), the per-action parameter payloads;
identifier lists are already-converted `Number` values. -/
inductive Params : Type
  | FindNotes (query : String)
  | NotesInfo (notes : List Int)
  | GuiEditNote (note : Int)
  | AddNote (notes : List Note)

/-- `GenericRequest` (src/generic.rs:17-25): the outbound envelope. -/
structure GenericRequest : Type where
  action : String
  version : Nat
  params : Option Params

/-- `Number` (src/lib.rs:511): a wrapper around the platform's `isize`,
embedded as a mathematical integer together with the 64-bit
representability discipline of its constructor. -/
structure Number : Type where
  val : Int
deriving DecidableEq

/-- `PrimInt::to_isize` for a 64-bit platform: the conversion succeeds
exactly when the value fits a signed 64-bit integer. -/
def toIsize (i : Int) : Option Int :=
  if -(2 ^ 63) ≤ i ∧ i ≤ 2 ^ 63 - 1 then some i else none

/-- `Number::new` (src/lib.rs:515-520): unwraps the conversion, panicking
when the input is not representable as `isize`. -/
def Number.new (i : Int) : Outcome Number :=
  match toIsize i with
  | some v => .ok ⟨v⟩
  | none => .panic

/-- `Number::from_slice_to_vec` (src/lib.rs:523-525): convert every
element in order; a panic in any element's conversion aborts. -/
def Number.from_slice_to_vec : List Int → Outcome (List Number)
  | [] => .ok []
  | i :: rest =>
      match Number.new i with
      | .ok n =>
          match Number.from_slice_to_vec rest with
          | .ok ns => .ok (n :: ns)
          | .err e => .err e
          | .panic => .panic
      | .err e => .err e
      | .panic => .panic

/-- `NotesProxy::get_notes_infos`, payload construction only
(src/notes.rs:556-565): the ids are converted through
`Number::from_slice_to_vec` and the envelope is built with its `action`
string and `NotesInfo` parameters. -/
def get_notes_infos_payload (version : Nat) (ids : List Int) :
    Outcome GenericRequest :=
  match Number.from_slice_to_vec ids with
  | .ok ns =>
      .ok { action := "findNotes", version := version,
            params := some (.NotesInfo (ns.map Number.val)) }
  | .err e => .err e
  | .panic => .panic

/-- **C6 (divergence).** The envelope built by `get_notes_infos` carries
the action string `"findNotes"`, which differs from the `"notesInfo"`
action the fetch-notes-info operation is specified to send. -/
theorem get_notes_infos_payload_action (version : Nat) (ids : List Int)
    (req : GenericRequest) (h : get_notes_infos_payload version ids = .ok req) :
    req.action = "findNotes" ∧ "findNotes" ≠ "notesInfo" := by
  refine ⟨?_, by decide⟩
  cases hc : Number.from_slice_to_vec ids <;>
    simp [get_notes_infos_payload, hc] at h
  exact h ▸ rfl

/-- Closed witness for C6: a concrete call with one id builds an envelope
whose action is `"findNotes"`. -/
theorem get_notes_infos_payload_action_witness :
    ({ action := "findNotes", version := 6,
        params := some (.NotesInfo [1679]) } : GenericRequest).action =
        "findNotes" ∧ "findNotes" ≠ "notesInfo" :=
  get_notes_infos_payload_action 6 [1679] _ rfl

/-- serde decode of an `isize` (64-bit platform) from a JSON value. -/
def decodeIsize : Json → Option Int
  | .num n => if -(2 ^ 63) ≤ n ∧ n ≤ 2 ^ 63 - 1 then some n else none
  | _ => none

/-- serde decode of a `u64` from a JSON value. -/
def decodeU64 : Json → Option Nat
  | .num n => if 0 ≤ n ∧ n ≤ 2 ^ 64 - 1 then some n.toNat else none
  | _ => none

/-- serde decode of a `u8` from a JSON value. -/
def decodeU8 : Json → Option Nat
  | .num n => if 0 ≤ n ∧ n < 256 then some n.toNat else none
  | _ => none

/-- serde decode of a `String` from a JSON value. -/
def decodeString : Json → Option String
  | .str s => some s
  | _ => none

/-- serde decode of a `Vec<T>` from a JSON value: only arrays qualify and
every element must decode. -/
def decodeList {α : Type} (d : Json → Option α) : Json → Option (List α)
  | .arr elems => elems.mapM d
  | _ => none

/-- serde decode of an `Option<T>` from a JSON value: `null` is `None`,
anything else must decode as `T`. -/
def decodeOpt {α : Type} (d : Json → Option α) : Json → Option (Option α)
  | .null => some none
  | v => (d v).map some

/-- serde decode of a `HashMap<String, T>` from a JSON value. -/
def decodeStringMap {α : Type} (d : Json → Option α) :
    Json → Option (List (String × α))
  | .obj members => members.mapM fun kv => (d kv.2).map fun a => (kv.1, a)
  | _ => none

/-- serde decode of `FieldData` (src/result.rs:23-26). -/
def decodeFieldData (v : Json) : Option FieldData := do
  let value ← v.get? "value" >>= decodeString
  let order ← v.get? "order" >>= decodeU8
  pure { value := value, order := order }

/-- serde decode of `NotesInfoData` (src/result.rs:29-34). -/
def decodeNotesInfoData (v : Json) : Option NotesInfoData := do
  let noteId ← v.get? "noteId" >>= decodeU64
  let modelName ← v.get? "modelName" >>= decodeString
  let tags ← v.get? "tags" >>= decodeList decodeString
  let fields ← v.get? "fields" >>= decodeStringMap decodeFieldData
  pure { noteId := noteId, modelName := modelName, tags := tags,
         fields := fields }

/-- serde decode of the envelope `GenericResult<T>` (src/generic.rs:33-37)
from a JSON value. `missingT` is serde's treatment of an absent `result`
member: `some none`-style defaulting exists only when `T` is an `Option`,
so for non-`Option` `T` it is `none` (absence fails the decode). The
`error` member is an `Option<String>`: absent or `null` is `None`. -/
def decodeGenericResult {T : Type} (dT : Json → Option T) (missingT : Option T)
    (v : Json) : Option (GenericResult T) :=
  match v with
  | .obj _ =>
      let res : Option T :=
        match v.get? "result" with
        | some rv => dT rv
        | none => missingT
      let errField : Option (Option String) :=
        match v.get? "error" with
        | none => some none
        | some .null => some none
        | some (.str s) => some (some s)
        | some _ => none
      match res, errField with
      | some r, some e => some { result := r, error := e }
      | _, _ => none
  | _ => none

/-- The post-transport stages of `Backend::post_generic_request`
(src/generic.rs:67-89): sanitize the parsed value, decode it into
`GenericResult<T>` (a failure becomes the inspectable `CustomSerde`
error carrying the expected-shape name, the received value and the
decode diagnostic, here abstracted as a fixed marker), then resolve a
non-null `error` to `AnkiError::AnkiConnect` and otherwise return the
result. -/
def postGenericPipeline {T : Type} (dT : Json → Option T) (missingT : Option T)
    (expName : String) (body : Json) : Except AnkiError T :=
  let val := sanitizeResponse body
  match decodeGenericResult dT missingT val with
  | none => .error (.CustomSerde { exp := expName, recv := val, help := "decode" })
  | some g => genericResolve g

/-- `NotesProxy::find_notes`, response side (src/notes.rs:514-525):
`post_generic_request::<Vec<isize>>` with no extra post-processing. -/
def find_notes_resolve (body : Json) : Except AnkiError (List Int) :=
  postGenericPipeline (decodeList decodeIsize) none "GenericResult<Vec<isize>>" body

/-- `NotesProxy::get_notes_infos`, response side (src/notes.rs:566-570):
`post_generic_request::<Vec<NotesInfoData>>`, then an empty result list
becomes `AnkiError::NoDataFound`. -/
def get_notes_infos_resolve (body : Json) :
    Except AnkiError (List NotesInfoData) :=
  match postGenericPipeline (decodeList decodeNotesInfoData) none
      "GenericResult<Vec<NotesInfoData>>" body with
  | .error e => .error e
  | .ok res => if res.isEmpty then .error .NoDataFound else .ok res

/-- `NotesProxy::add_notes`, response side (src/notes.rs:482-485):
`post_generic_request::<Option<Vec<isize>>>` followed by
`res.unwrap()` — which panics when the decoded `result` is `None`. -/
def add_notes_resolve (body : Json) : Outcome (List Int) :=
  match postGenericPipeline (decodeOpt (decodeList decodeIsize)) (some none)
      "GenericResult<Option<Vec<isize>>>" body with
  | .error e => .err e
  | .ok (some ids) => .ok ids
  | .ok none => .panic

/-- The response envelope holding a null error and an empty result
array. -/
def emptyOkBody : Json :=
  .obj [("result", .arr []), ("error", .null)]

/-- **C5.** Empty results are interpreted per action: on the envelope
with a null `error` and an empty `result` array, `find_notes` succeeds
with the empty id list while `get_notes_infos` fails with
`AnkiError::NoDataFound`. -/
theorem empty_result_semantics_differ :
    find_notes_resolve emptyOkBody = .ok [] ∧
      get_notes_infos_resolve emptyOkBody = .error .NoDataFound := by
  constructor <;> rfl

/-- The response envelope holding a null error and a null result. -/
def nullOkBody : Json :=
  .obj [("result", .null), ("error", .null)]

/-- **C9 (divergence).** On the well-formed response with a null `error`
and a null `result`, `add_notes` does not return a typed error: the
decoded `Option` result is `None` and the facade's `unwrap` panics. -/
theorem add_notes_null_result_panics :
    add_notes_resolve nullOkBody = .panic := by
  rfl

/-- **C10.** `Number::new` on a 64-bit platform: an input representable
as `isize` yields a wrapper holding exactly that value (and
`from_slice_to_vec` maps a fully representable slice to its wrappers,
preserving every element and the order); a non-representable input makes
`Number::new` panic instead of returning a typed error. -/
theorem number_new_spec :
    (∀ i : Int, -(2 ^ 63) ≤ i ∧ i ≤ 2 ^ 63 - 1 → Number.new i = .ok ⟨i⟩) ∧
      (∀ i : Int, ¬(-(2 ^ 63) ≤ i ∧ i ≤ 2 ^ 63 - 1) → Number.new i = .panic) ∧
      (∀ l : List Int, (∀ i ∈ l, -(2 ^ 63) ≤ i ∧ i ≤ 2 ^ 63 - 1) →
        Number.from_slice_to_vec l = .ok (l.map Number.mk)) := by
  have hok : ∀ i : Int, -(2 ^ 63) ≤ i ∧ i ≤ 2 ^ 63 - 1 →
      Number.new i = .ok ⟨i⟩ := by
    intro i h
    unfold Number.new toIsize
    rw [if_pos h]
  refine ⟨hok, fun i h => ?_, fun l h => ?_⟩
  · unfold Number.new toIsize
    rw [if_neg h]
  · induction l with
    | nil => rfl
    | cons i rest ih =>
        have hi := hok i (h i (List.mem_cons_self i rest))
        have hrest := ih fun j hj => h j (List.mem_cons_of_mem i hj)
        simp [Number.from_slice_to_vec, hi, hrest]

/-- Closed witness for C10: a small id is wrapped exactly, a list of
small ids is wrapped element by element in order, and a 2^80 input
panics. -/
theorem number_new_spec_witness :
    Number.new 5 = .ok ⟨5⟩ ∧
      Number.from_slice_to_vec [3, 4] = .ok [⟨3⟩, ⟨4⟩] ∧
      Number.new (2 ^ 80) = .panic :=
  ⟨number_new_spec.1 5 (by decide),
    (number_new_spec.2.2 [3, 4] (by decide)).trans rfl,
    number_new_spec.2.1 (2 ^ 80) (by decide)⟩
